import Mathlib

/-!
Verification of the floating-PV cell-temperature example
(`docs/examples/floating-pv/plot_floating_pv_cell_temperature.py`).

The script's module docstring states the PVSyst cell-temperature model

  T_C = T_a + (alpha * E * (1 - eta_m)) / (U_c + U_v * WS)

and the script evaluates `pvlib.temperature.pvsyst_cell` once per set of
heat-loss coefficients from its `heat_loss_coeffs` dictionary.  The body of
`pvlib.temperature.pvsyst_cell` is not among the provided sources, so the
compute operation is modelled from the specification (§4.1, §7): pointwise
application of the formula over aligned time series, with fail-fast
validation of the coefficients and of the series alignment.

Real-number arithmetic is embedded over ℚ.
-/

namespace FloatingPV

/-- A time series: an ordered list of (timestamp, value) pairs. -/
abbrev TimeSeries := List (Int × ℚ)

/-- The timestamps of a series, in order. -/
def timestamps (s : TimeSeries) : List Int := s.map Prod.fst

/-- The PVSyst cell-temperature formula at one sample, exactly as in the
script's docstring: `T_C = T_a + alpha * E * (1 - eta_m) / (U_c + U_v * WS)`. -/
def pvsyst_point (poa temp_air wind_speed u_c u_v alpha eta_m : ℚ) : ℚ :=
  temp_air + (alpha * poa * (1 - eta_m)) / (u_c + u_v * wind_speed)

/-- Error taxonomy of the compute operation (spec §7). -/
inductive ModelError where
  | InvalidCoefficient
  | MisalignedSeries
deriving DecidableEq

/-- Pointwise application of `pvsyst_point` over three aligned series;
the output carries the timestamps of the first (irradiance) series. -/
def pvsystMap (u_c u_v alpha eta_m : ℚ) :
    TimeSeries → TimeSeries → TimeSeries → TimeSeries
  | (t, g) :: ps, (_, ta) :: tas, (_, ws) :: wss =>
      (t, pvsyst_point g ta ws u_c u_v alpha eta_m) ::
        pvsystMap u_c u_v alpha eta_m ps tas wss
  | _, _, _ => []

/-- Modelled from the spec: the body of `pvlib.temperature.pvsyst_cell` is not
among the provided sources (the script only calls it).  Following §4.1/§7,
`compute` validates the coefficients (`InvalidCoefficient` when `u_c ≤ 0` or
`alpha`/`eta_m` outside [0,1]; they are listed first in §4.1 and §8), then the
series alignment (`MisalignedSeries` when the timestamp lists differ), and
otherwise applies the PVSyst formula pointwise (§4.1's algorithm). -/
def compute (poa_global temp_air wind_speed : TimeSeries)
    (u_c u_v alpha eta_m : ℚ) : Except ModelError TimeSeries :=
  if u_c ≤ 0 ∨ alpha < 0 ∨ 1 < alpha ∨ eta_m < 0 ∨ 1 < eta_m then
    .error .InvalidCoefficient
  else if timestamps poa_global ≠ timestamps temp_air ∨
      timestamps poa_global ≠ timestamps wind_speed then
    .error .MisalignedSeries
  else
    .ok (pvsystMap u_c u_v alpha eta_m poa_global temp_air wind_speed)

/-- The nine coefficient sets `(label, u_c, u_v)` of the script's
`heat_loss_coeffs` dictionary. -/
def heat_loss_coeffs : List (String × ℚ × ℚ) :=
  [("open_structure_small_footprint_tracking_NL", 244/10, 65/10),
   ("closed_structure_large_footprint_NL", 252/10, 37/10),
   ("closed_structure_large_footprint_SG", 348/10, 8/10),
   ("closed_structure_medium_footprint_SG", 189/10, 89/10),
   ("open_structure_free_standing_SG", 353/10, 89/10),
   ("in_contact_with_water_NO", 865/10, 0),
   ("open_strucutre_free_standing_IT", 319/10, 15/10),
   ("open_strucutre_free_standing_bifacial_IT", 352/10, 15/10),
   ("default_PVSyst_coeffs_for_land_systems", 29, 0)]

/-! ### Helper lemmas about the pointwise map -/

theorem timestamps_nil : timestamps [] = [] := rfl

theorem timestamps_cons (p : Int × ℚ) (s : TimeSeries) :
    timestamps (p :: s) = p.1 :: timestamps s := rfl

/-- Sample `i` of the pointwise map is the formula applied to sample `i`
of each input. -/
theorem pvsystMap_getElem (u_c u_v alpha eta_m : ℚ) (poa : TimeSeries) :
    ∀ (ta ws : TimeSeries) (i : Nat) (pg pa pw : Int × ℚ),
      poa[i]? = some pg → ta[i]? = some pa → ws[i]? = some pw →
      (pvsystMap u_c u_v alpha eta_m poa ta ws)[i]? =
        some (pg.1, pvsyst_point pg.2 pa.2 pw.2 u_c u_v alpha eta_m) := by
  induction poa with
  | nil => intro ta ws i pg pa pw hg hta hws; simp at hg
  | cons p ps ih =>
    intro ta ws i pg pa pw hg hta hws
    match ta, ws with
    | [], _ => simp at hta
    | _ :: _, [] => simp at hws
    | (t2, a) :: tas, (t3, w) :: wss =>
      obtain ⟨t, g⟩ := p
      match i with
      | 0 =>
        simp only [List.getElem?_cons_zero, Option.some.injEq] at hg hta hws
        subst hg hta hws
        simp [pvsystMap]
      | i + 1 =>
        simp only [List.getElem?_cons_succ] at hg hta hws
        simpa [pvsystMap] using ih tas wss i pg pa pw hg hta hws

/-- The pointwise map keeps the irradiance series' timestamps when the
inputs are aligned. -/
theorem timestamps_pvsystMap (u_c u_v alpha eta_m : ℚ) (poa : TimeSeries) :
    ∀ (ta ws : TimeSeries),
      timestamps poa = timestamps ta → timestamps poa = timestamps ws →
      timestamps (pvsystMap u_c u_v alpha eta_m poa ta ws) = timestamps poa := by
  induction poa with
  | nil => intro ta ws h1 h2; simp [pvsystMap, timestamps]
  | cons p ps ih =>
    intro ta ws h1 h2
    match ta, ws with
    | [], _ => simp [timestamps] at h1
    | _ :: _, [] => simp [timestamps] at h2
    | (t2, a) :: tas, (t3, w) :: wss =>
      obtain ⟨t, g⟩ := p
      simp only [timestamps_cons, List.cons.injEq] at h1 h2
      simp only [pvsystMap, timestamps_cons, List.cons.injEq]
      exact ⟨trivial, by simpa [timestamps] using ih tas wss h1.2 h2.2⟩

/-- With zero irradiance everywhere and aligned inputs, the pointwise map
returns the ambient-temperature series unchanged. -/
theorem pvsystMap_zero (u_c u_v alpha eta_m : ℚ) (poa : TimeSeries) :
    ∀ (ta ws : TimeSeries),
      timestamps poa = timestamps ta → timestamps poa = timestamps ws →
      (∀ p ∈ poa, p.2 = 0) →
      pvsystMap u_c u_v alpha eta_m poa ta ws = ta := by
  induction poa with
  | nil =>
    intro ta ws h1 h2 hz
    have : ta = [] := by
      cases ta with
      | nil => rfl
      | cons q qs => simp [timestamps] at h1
    simp [pvsystMap, this]
  | cons p ps ih =>
    intro ta ws h1 h2 hz
    match ta, ws with
    | [], _ => simp [timestamps] at h1
    | _ :: _, [] => simp [timestamps] at h2
    | (t2, a) :: tas, (t3, w) :: wss =>
      obtain ⟨t, g⟩ := p
      simp only [timestamps_cons, List.cons.injEq] at h1 h2
      have hg : g = 0 := hz (t, g) (List.mem_cons_self _ _)
      simp only [pvsystMap, List.cons.injEq]
      refine ⟨?_, ih tas wss h1.2 h2.2 fun q hq => hz q (List.mem_cons_of_mem _ hq)⟩
      simp [pvsyst_point, hg, h1.1]

/-- The PVSyst formula never predicts a cell colder than the ambient air,
for inputs and coefficients in the spec's domain. -/
theorem pvsyst_point_ge_ambient (g ta ws u_c u_v alpha eta_m : ℚ)
    (hg : 0 ≤ g) (hws : 0 ≤ ws) (huc : 0 < u_c) (huv : 0 ≤ u_v)
    (ha : 0 ≤ alpha) (he : eta_m ≤ 1) :
    ta ≤ pvsyst_point g ta ws u_c u_v alpha eta_m := by
  unfold pvsyst_point
  have hd : 0 < u_c + u_v * ws := add_pos_of_pos_of_nonneg huc (mul_nonneg huv hws)
  have hn : 0 ≤ alpha * g * (1 - eta_m) :=
    mul_nonneg (mul_nonneg ha hg) (by linarith)
  exact le_add_of_nonneg_right (div_nonneg hn hd.le)

/-! ### Claims -/

/-- Claim C1: for every aligned sample `i` of the input series, with
`u_c > 0`, `u_v ≥ 0`, `alpha ∈ [0,1]` and `eta_m ∈ [0,1]`, the computed cell
temperature equals
`temp_air[i] + (alpha * poa_global[i] * (1 - eta_m)) / (u_c + u_v * wind_speed[i])`. -/
theorem C1_formula_correctness (poa ta ws : TimeSeries) (u_c u_v alpha eta_m : ℚ)
    (huc : 0 < u_c) (huv : 0 ≤ u_v)
    (ha : 0 ≤ alpha ∧ alpha ≤ 1) (he : 0 ≤ eta_m ∧ eta_m ≤ 1)
    (h1 : timestamps poa = timestamps ta) (h2 : timestamps poa = timestamps ws)
    (i : Nat) (t1 t2 t3 : Int) (g a w : ℚ)
    (hg : poa[i]? = some (t1, g)) (hta : ta[i]? = some (t2, a))
    (hws : ws[i]? = some (t3, w)) :
    ∃ out, compute poa ta ws u_c u_v alpha eta_m = Except.ok out ∧
      out[i]? = some (t1, a + (alpha * g * (1 - eta_m)) / (u_c + u_v * w)) := by
  have hA : ¬(u_c ≤ 0 ∨ alpha < 0 ∨ 1 < alpha ∨ eta_m < 0 ∨ 1 < eta_m) := by
    push_neg
    exact ⟨huc, ha.1, ha.2, he.1, he.2⟩
  have hB : ¬(timestamps poa ≠ timestamps ta ∨ timestamps poa ≠ timestamps ws) := by
    push_neg
    exact ⟨h1, h2⟩
  refine ⟨pvsystMap u_c u_v alpha eta_m poa ta ws, ?_, ?_⟩
  · unfold compute
    rw [if_neg hA, if_neg hB]
  · simpa [pvsyst_point] using
      pvsystMap_getElem u_c u_v alpha eta_m poa ta ws i (t1, g) (t2, a) (t3, w) hg hta hws

/-- Witness for C1: the spec's concrete instance (poa=1000, temp_air=25,
wind_speed=1, u_c=29.0, u_v=0, alpha=0.9, eta_m=0) produces exactly
25 + 900/29, which is within 0.01 of 56.03 °C. -/
theorem C1_formula_correctness_witness :
    (∃ out, compute [(0, 1000)] [(0, 25)] [(0, 1)] 29 0 (9/10) 0 = Except.ok out ∧
        out[0]? = some (0, 25 + ((9/10) * 1000 * (1 - 0)) / (29 + 0 * 1))) ∧
    |25 + ((9/10 : ℚ) * 1000 * (1 - 0)) / (29 + 0 * 1) - 5603/100| < 1/100 := by
  constructor
  · exact C1_formula_correctness [(0, 1000)] [(0, 25)] [(0, 1)] 29 0 (9/10) 0
      (by norm_num) (by norm_num) (by norm_num) (by norm_num) rfl rfl
      0 0 0 0 1000 25 1 rfl rfl rfl
  · rw [abs_lt]
    constructor <;> norm_num

/-- Claim C2: compute fails with `InvalidCoefficient` exactly when `u_c ≤ 0`
or `alpha`/`eta_m` fall outside [0,1]; in particular `u_c = 0`, `u_c = -5`
and `eta_m = 1.5` each raise `InvalidCoefficient`, never silently clamped. -/
theorem C2_invalid_coefficient :
    (∀ (poa ta ws : TimeSeries) (u_c u_v alpha eta_m : ℚ),
      compute poa ta ws u_c u_v alpha eta_m =
          Except.error ModelError.InvalidCoefficient ↔
        u_c ≤ 0 ∨ alpha < 0 ∨ 1 < alpha ∨ eta_m < 0 ∨ 1 < eta_m) ∧
    compute [(0, 1000)] [(0, 25)] [(0, 1)] 0 0 (9/10) 0 =
      Except.error ModelError.InvalidCoefficient ∧
    compute [(0, 1000)] [(0, 25)] [(0, 1)] (-5) 0 (9/10) 0 =
      Except.error ModelError.InvalidCoefficient ∧
    compute [(0, 1000)] [(0, 25)] [(0, 1)] 29 0 (9/10) (15/10) =
      Except.error ModelError.InvalidCoefficient := by
  refine ⟨?_, ?_, ?_, ?_⟩
  · intro poa ta ws u_c u_v alpha eta_m
    unfold compute
    split_ifs with hA hB <;> simp [hA]
  · unfold compute
    rw [if_pos (by norm_num)]
  · unfold compute
    rw [if_pos (by norm_num)]
  · unfold compute
    rw [if_pos (by norm_num)]

/-- Counterexample to C3 as stated: with `u_c = 0` (an invalid coefficient)
and a `temp_air` series with fewer samples than `poa_global`, the error is
`InvalidCoefficient`, not `MisalignedSeries` — coefficient validation takes
precedence, so misalignment does not always produce `MisalignedSeries`. -/
theorem C3_counterexample :
    compute [(0, 1000), (1, 900)] [(0, 25)] [(0, 1), (1, 2)] 0 0 (9/10) 0 =
        Except.error ModelError.InvalidCoefficient ∧
    compute [(0, 1000), (1, 900)] [(0, 25)] [(0, 1), (1, 2)] 0 0 (9/10) 0 ≠
        Except.error ModelError.MisalignedSeries := by
  have h : compute [(0, 1000), (1, 900)] [(0, 25)] [(0, 1), (1, 2)] 0 0 (9/10) 0 =
      Except.error ModelError.InvalidCoefficient := by
    unfold compute
    rw [if_pos (by norm_num)]
  exact ⟨h, by simp [h]⟩

/-- Claim C3 (amended): when the coefficients pass validation, compute fails
with `MisalignedSeries` whenever the input series do not share the same
length and timestamp set; if the coefficients are also invalid,
`InvalidCoefficient` is reported instead. -/
theorem C3_misaligned_series (poa ta ws : TimeSeries) (u_c u_v alpha eta_m : ℚ)
    (huc : 0 < u_c) (ha : 0 ≤ alpha ∧ alpha ≤ 1) (he : 0 ≤ eta_m ∧ eta_m ≤ 1)
    (hmis : poa.length ≠ ta.length ∨ poa.length ≠ ws.length ∨
      (timestamps poa).toFinset ≠ (timestamps ta).toFinset ∨
      (timestamps poa).toFinset ≠ (timestamps ws).toFinset) :
    compute poa ta ws u_c u_v alpha eta_m =
      Except.error ModelError.MisalignedSeries := by
  have hA : ¬(u_c ≤ 0 ∨ alpha < 0 ∨ 1 < alpha ∨ eta_m < 0 ∨ 1 < eta_m) := by
    push_neg
    exact ⟨huc, ha.1, ha.2, he.1, he.2⟩
  have hB : timestamps poa ≠ timestamps ta ∨ timestamps poa ≠ timestamps ws := by
    rcases hmis with h | h | h | h
    · exact Or.inl fun hq => h (by simpa [timestamps] using congrArg List.length hq)
    · exact Or.inr fun hq => h (by simpa [timestamps] using congrArg List.length hq)
    · exact Or.inl fun hq => h (by rw [hq])
    · exact Or.inr fun hq => h (by rw [hq])
  unfold compute
  rw [if_neg hA, if_pos hB]

/-- Witness for C3 (amended): with valid coefficients, a `temp_air` series
with one sample against two raises `MisalignedSeries`. -/
theorem C3_misaligned_series_witness :
    compute [(0, 1000), (1, 900)] [(0, 25)] [(0, 1), (1, 2)] 29 0 (9/10) 0 =
      Except.error ModelError.MisalignedSeries :=
  C3_misaligned_series _ _ _ _ _ _ _ (by norm_num) (by norm_num) (by norm_num)
    (Or.inl (by simp))

/-- Claim C4: zero-irradiance identity — with aligned series, valid
coefficients and `poa_global` zero at every sample, the computed series
equals `temp_air` exactly. -/
theorem C4_zero_irradiance (poa ta ws : TimeSeries) (u_c u_v alpha eta_m : ℚ)
    (huc : 0 < u_c) (huv : 0 ≤ u_v)
    (ha : 0 ≤ alpha ∧ alpha ≤ 1) (he : 0 ≤ eta_m ∧ eta_m ≤ 1)
    (h1 : timestamps poa = timestamps ta) (h2 : timestamps poa = timestamps ws)
    (hz : ∀ p ∈ poa, p.2 = 0) :
    compute poa ta ws u_c u_v alpha eta_m = Except.ok ta := by
  have hA : ¬(u_c ≤ 0 ∨ alpha < 0 ∨ 1 < alpha ∨ eta_m < 0 ∨ 1 < eta_m) := by
    push_neg
    exact ⟨huc, ha.1, ha.2, he.1, he.2⟩
  have hB : ¬(timestamps poa ≠ timestamps ta ∨ timestamps poa ≠ timestamps ws) := by
    push_neg
    exact ⟨h1, h2⟩
  unfold compute
  rw [if_neg hA, if_neg hB]
  exact congrArg Except.ok (pvsystMap_zero u_c u_v alpha eta_m poa ta ws h1 h2 hz)

/-- Witness for C4: a two-sample zero-irradiance input returns the ambient
temperature series unchanged. -/
theorem C4_zero_irradiance_witness :
    compute [(0, 0), (1, 0)] [(0, 25), (1, 30)] [(0, 1), (1, 2)] 29 0 (9/10) 0 =
      Except.ok [(0, 25), (1, 30)] :=
  C4_zero_irradiance _ _ _ _ _ _ _ (by norm_num) (by norm_num) (by norm_num)
    (by norm_num) rfl rfl
    (by
      intro p hp
      simp only [List.mem_cons, List.not_mem_nil, or_false] at hp
      rcases hp with rfl | rfl <;> rfl)

/-- Counterexample to C5 as stated: with `alpha = 0`, a coefficient inside
the spec's domain [0,1], the absorbed-heat numerator vanishes, so raising
the wind speed from 0 to 1 leaves the cell temperature at 25 instead of
strictly decreasing it. -/
theorem C5_counterexample :
    compute [(0, 1000)] [(0, 25)] [(0, 1)] 29 5 0 0 = Except.ok [(0, 25)] ∧
    compute [(0, 1000)] [(0, 25)] [(0, 0)] 29 5 0 0 = Except.ok [(0, 25)] ∧
    ¬((25 : ℚ) < 25) := by
  refine ⟨?_, ?_, by norm_num⟩ <;>
    · unfold compute
      rw [if_neg (by norm_num), if_neg (by push_neg; exact ⟨rfl, rfl⟩)]
      norm_num [pvsystMap, pvsyst_point]

/-- Claim C5 (amended): holding all else fixed with `u_c > 0`, `u_v > 0`,
`poa_global > 0`, wind speeds ≥ 0, and additionally `alpha > 0` and
`eta_m < 1` (so the absorbed heat is positive), increasing the wind speed
strictly decreases the cell temperature. -/
theorem C5_wind_monotonicity (g a ws1 ws2 u_c u_v alpha eta_m : ℚ)
    (huc : 0 < u_c) (huv : 0 < u_v) (hg : 0 < g)
    (ha : 0 < alpha) (he : eta_m < 1) (hws1 : 0 ≤ ws1) (hlt : ws1 < ws2) :
    pvsyst_point g a ws2 u_c u_v alpha eta_m <
      pvsyst_point g a ws1 u_c u_v alpha eta_m := by
  unfold pvsyst_point
  have hn : 0 < alpha * g * (1 - eta_m) := mul_pos (mul_pos ha hg) (by linarith)
  have hd1 : 0 < u_c + u_v * ws1 := add_pos_of_pos_of_nonneg huc (mul_nonneg huv.le hws1)
  have hdd : u_c + u_v * ws1 < u_c + u_v * ws2 := by
    have := mul_lt_mul_of_pos_left hlt huv
    linarith
  exact add_lt_add_left (div_lt_div_of_pos_left hn hd1 hdd) a

/-- Witness for C5 (amended): with the script's default alpha 0.9 and a
positive `u_v`, wind 1 m/s gives a strictly lower temperature than 0 m/s. -/
theorem C5_wind_monotonicity_witness :
    pvsyst_point 1000 25 1 29 5 (9/10) 0 < pvsyst_point 1000 25 0 29 5 (9/10) 0 :=
  C5_wind_monotonicity 1000 25 0 1 29 5 (9/10) 0 (by norm_num) (by norm_num)
    (by norm_num) (by norm_num) (by norm_num) le_rfl (by norm_num)

/-- Counterexample to C6 as stated: with `alpha = 0`, a coefficient inside
the spec's domain [0,1], raising the irradiance from 0 to 1000 leaves the
cell temperature at 25 instead of strictly increasing it. -/
theorem C6_counterexample :
    compute [(0, 0)] [(0, 25)] [(0, 1)] 29 5 0 0 = Except.ok [(0, 25)] ∧
    compute [(0, 1000)] [(0, 25)] [(0, 1)] 29 5 0 0 = Except.ok [(0, 25)] ∧
    ¬((25 : ℚ) < (25 : ℚ)) := by
  refine ⟨?_, ?_, by norm_num⟩ <;>
    · unfold compute
      rw [if_neg (by norm_num), if_neg (by push_neg; exact ⟨rfl, rfl⟩)]
      norm_num [pvsystMap, pvsyst_point]

/-- Claim C6 (amended): holding all else fixed with `u_c > 0`, `u_v ≥ 0`,
wind speed ≥ 0, and additionally `alpha > 0` and `eta_m < 1`, increasing the
irradiance strictly increases the cell temperature. -/
theorem C6_irradiance_monotonicity (g1 g2 a w u_c u_v alpha eta_m : ℚ)
    (huc : 0 < u_c) (huv : 0 ≤ u_v) (hw : 0 ≤ w)
    (ha : 0 < alpha) (he : eta_m < 1) (hlt : g1 < g2) :
    pvsyst_point g1 a w u_c u_v alpha eta_m <
      pvsyst_point g2 a w u_c u_v alpha eta_m := by
  unfold pvsyst_point
  have hd : 0 < u_c + u_v * w := add_pos_of_pos_of_nonneg huc (mul_nonneg huv hw)
  have hnum : alpha * g1 * (1 - eta_m) < alpha * g2 * (1 - eta_m) :=
    mul_lt_mul_of_pos_right (mul_lt_mul_of_pos_left hlt ha) (by linarith)
  exact add_lt_add_left ((div_lt_div_iff_of_pos_right hd).mpr hnum) a

/-- Witness for C6 (amended): with the script's default alpha 0.9,
irradiance 1000 gives a strictly higher temperature than irradiance 0. -/
theorem C6_irradiance_monotonicity_witness :
    pvsyst_point 0 25 1 29 5 (9/10) 0 < pvsyst_point 1000 25 1 29 5 (9/10) 0 :=
  C6_irradiance_monotonicity 0 1000 25 1 29 5 (9/10) 0 (by norm_num) (by norm_num)
    (by norm_num) (by norm_num) (by norm_num) (by norm_num)

/-- Claim C7: for every valid input, compute returns a series with exactly
the same timestamp list (hence the same timestamp set) and the same length
as the `poa_global` input — one output value per input sample. -/
theorem C7_output_alignment (poa ta ws : TimeSeries) (u_c u_v alpha eta_m : ℚ)
    (huc : 0 < u_c) (huv : 0 ≤ u_v)
    (ha : 0 ≤ alpha ∧ alpha ≤ 1) (he : 0 ≤ eta_m ∧ eta_m ≤ 1)
    (h1 : timestamps poa = timestamps ta) (h2 : timestamps poa = timestamps ws) :
    ∃ out, compute poa ta ws u_c u_v alpha eta_m = Except.ok out ∧
      timestamps out = timestamps poa ∧ out.length = poa.length := by
  have hA : ¬(u_c ≤ 0 ∨ alpha < 0 ∨ 1 < alpha ∨ eta_m < 0 ∨ 1 < eta_m) := by
    push_neg
    exact ⟨huc, ha.1, ha.2, he.1, he.2⟩
  have hB : ¬(timestamps poa ≠ timestamps ta ∨ timestamps poa ≠ timestamps ws) := by
    push_neg
    exact ⟨h1, h2⟩
  have hts := timestamps_pvsystMap u_c u_v alpha eta_m poa ta ws h1 h2
  refine ⟨pvsystMap u_c u_v alpha eta_m poa ta ws, ?_, hts, ?_⟩
  · unfold compute
    rw [if_neg hA, if_neg hB]
  · simpa [timestamps] using congrArg List.length hts

/-- Witness for C7: a two-sample input yields a two-sample output with the
input's timestamps. -/
theorem C7_output_alignment_witness :
    ∃ out, compute [(0, 100), (1, 200)] [(0, 25), (1, 30)] [(0, 1), (1, 2)]
        29 0 (9/10) 0 = Except.ok out ∧
      timestamps out = timestamps [(0, 100), (1, 200)] ∧
      out.length = ([(0, 100), (1, 200)] : TimeSeries).length :=
  C7_output_alignment _ _ _ _ _ _ _ (by norm_num) (by norm_num) (by norm_num)
    (by norm_num) rfl rfl

/-- Claim C8: determinism and statelessness — compute is a pure function of
its arguments alone, so two invocations with identical inputs return
identical outputs, unaffected by any other invocation. -/
theorem C8_deterministic (poa1 ta1 ws1 poa2 ta2 ws2 : TimeSeries)
    (uc1 uv1 al1 em1 uc2 uv2 al2 em2 : ℚ)
    (hp : poa1 = poa2) (ht : ta1 = ta2) (hw : ws1 = ws2)
    (hc : uc1 = uc2) (hv : uv1 = uv2) (hal : al1 = al2) (hem : em1 = em2) :
    compute poa1 ta1 ws1 uc1 uv1 al1 em1 = compute poa2 ta2 ws2 uc2 uv2 al2 em2 := by
  subst hp ht hw hc hv hal hem
  rfl

/-- Witness for C8: two identical calls on the spec's concrete instance
agree. -/
theorem C8_deterministic_witness :
    compute [(0, 1000)] [(0, 25)] [(0, 1)] 29 0 (9/10) 0 =
      compute [(0, 1000)] [(0, 25)] [(0, 1)] 29 0 (9/10) 0 :=
  C8_deterministic _ _ _ _ _ _ _ _ _ _ _ _ _ _ rfl rfl rfl rfl rfl rfl rfl

/-- Claim C9: pointwise noninterference — two valid inputs that agree at
sample `i` (same timestamp and values there) produce outputs that agree at
sample `i`, and that sample is the formula of the three input values alone. -/
theorem C9_pointwise_noninterference (poa ta ws poa2 ta2 ws2 : TimeSeries)
    (u_c u_v alpha eta_m : ℚ)
    (huc : 0 < u_c) (huv : 0 ≤ u_v)
    (ha : 0 ≤ alpha ∧ alpha ≤ 1) (he : 0 ≤ eta_m ∧ eta_m ≤ 1)
    (h1 : timestamps poa = timestamps ta) (h2 : timestamps poa = timestamps ws)
    (h1b : timestamps poa2 = timestamps ta2) (h2b : timestamps poa2 = timestamps ws2)
    (i : Nat) (t1 t2 t3 : Int) (g a w : ℚ)
    (hg : poa[i]? = some (t1, g)) (hta : ta[i]? = some (t2, a))
    (hws : ws[i]? = some (t3, w))
    (hg2 : poa2[i]? = some (t1, g)) (hta2 : ta2[i]? = some (t2, a))
    (hws2 : ws2[i]? = some (t3, w)) :
    ∃ out out2,
      compute poa ta ws u_c u_v alpha eta_m = Except.ok out ∧
      compute poa2 ta2 ws2 u_c u_v alpha eta_m = Except.ok out2 ∧
      out[i]? = out2[i]? ∧
      out[i]? = some (t1, pvsyst_point g a w u_c u_v alpha eta_m) := by
  have hA : ¬(u_c ≤ 0 ∨ alpha < 0 ∨ 1 < alpha ∨ eta_m < 0 ∨ 1 < eta_m) := by
    push_neg
    exact ⟨huc, ha.1, ha.2, he.1, he.2⟩
  have hB : ¬(timestamps poa ≠ timestamps ta ∨ timestamps poa ≠ timestamps ws) := by
    push_neg
    exact ⟨h1, h2⟩
  have hB2 : ¬(timestamps poa2 ≠ timestamps ta2 ∨ timestamps poa2 ≠ timestamps ws2) := by
    push_neg
    exact ⟨h1b, h2b⟩
  have e1 := pvsystMap_getElem u_c u_v alpha eta_m poa ta ws i (t1, g) (t2, a) (t3, w)
    hg hta hws
  have e2 := pvsystMap_getElem u_c u_v alpha eta_m poa2 ta2 ws2 i (t1, g) (t2, a) (t3, w)
    hg2 hta2 hws2
  refine ⟨pvsystMap u_c u_v alpha eta_m poa ta ws,
    pvsystMap u_c u_v alpha eta_m poa2 ta2 ws2, ?_, ?_, ?_, ?_⟩
  · unfold compute
    rw [if_neg hA, if_neg hB]
  · unfold compute
    rw [if_neg hA, if_neg hB2]
  · rw [e1, e2]
  · exact e1

/-- Witness for C9: two inputs that agree at sample 0 but differ at sample 1
produce the same output at sample 0. -/
theorem C9_pointwise_noninterference_witness :
    ∃ out out2,
      compute [(0, 1000), (1, 900)] [(0, 25), (1, 30)] [(0, 1), (1, 2)]
          29 0 (9/10) 0 = Except.ok out ∧
      compute [(0, 1000), (1, 100)] [(0, 25), (1, 10)] [(0, 1), (1, 9)]
          29 0 (9/10) 0 = Except.ok out2 ∧
      out[0]? = out2[0]? ∧
      out[0]? = some (0, pvsyst_point 1000 25 1 29 0 (9/10) 0) :=
  C9_pointwise_noninterference [(0, 1000), (1, 900)] [(0, 25), (1, 30)]
    [(0, 1), (1, 2)] [(0, 1000), (1, 100)] [(0, 25), (1, 10)] [(0, 1), (1, 9)]
    29 0 (9/10) 0 (by norm_num) (by norm_num)
    (by norm_num) (by norm_num) rfl rfl rfl rfl 0 0 0 0 1000 25 1
    rfl rfl rfl rfl rfl rfl

/-- Claim C10: ambient lower bound — with non-negative irradiance and wind
speed and coefficients in the spec's domain, the cell temperature is at
least the ambient temperature; in particular every one of the script's nine
`heat_loss_coeffs` sets has `u_c > 0` (and `u_v ≥ 0`), so with the default
alpha 0.9 and eta_m 0 the bound holds for each of them. -/
theorem C10_ambient_lower_bound (g a w u_c u_v alpha eta_m : ℚ)
    (hg : 0 ≤ g) (hw : 0 ≤ w) (huc : 0 < u_c) (huv : 0 ≤ u_v)
    (ha : 0 ≤ alpha ∧ alpha ≤ 1) (he : 0 ≤ eta_m ∧ eta_m ≤ 1) :
    a ≤ pvsyst_point g a w u_c u_v alpha eta_m ∧
    ∀ c ∈ heat_loss_coeffs, 0 < c.2.1 ∧ 0 ≤ c.2.2 ∧
      a ≤ pvsyst_point g a w c.2.1 c.2.2 (9/10) 0 := by
  constructor
  · exact pvsyst_point_ge_ambient g a w u_c u_v alpha eta_m hg hw huc huv ha.1 he.2
  · intro c hc
    simp only [heat_loss_coeffs, List.mem_cons, List.not_mem_nil, or_false] at hc
    rcases hc with rfl | rfl | rfl | rfl | rfl | rfl | rfl | rfl | rfl <;>
      exact ⟨by norm_num, by norm_num,
        pvsyst_point_ge_ambient _ _ _ _ _ _ _ hg hw (by norm_num) (by norm_num)
          (by norm_num) (by norm_num)⟩

/-- Witness for C10: at irradiance 1000, ambient 25 and wind 1 the bound
holds for the default coefficients and all nine coefficient sets. -/
theorem C10_ambient_lower_bound_witness :
    (25 : ℚ) ≤ pvsyst_point 1000 25 1 29 0 (9/10) 0 ∧
    ∀ c ∈ heat_loss_coeffs, 0 < c.2.1 ∧ 0 ≤ c.2.2 ∧
      (25 : ℚ) ≤ pvsyst_point 1000 25 1 c.2.1 c.2.2 (9/10) 0 :=
  C10_ambient_lower_bound 1000 25 1 29 0 (9/10) 0 (by norm_num) (by norm_num)
    (by norm_num) (by norm_num) (by norm_num) (by norm_num)

end FloatingPV
